import Mathlib

/-!
Verification development for the Solar multi-agent task-delegation repository
(coordinator `moon_agent.py`, worker `backend/moon_agent_two.py`, codec/adapter
`backend/envelope.py`).

The Python sources are shallowly embedded below.  Python strings are Lean
`String`s; Python dicts that carry a fixed key set become structures; external
effects (the Anthropic client, `json.loads`, `uuid.uuid4()`, `datetime.now()`,
the supabase insert) are passed in as explicit inputs describing their outcome.
A Python function that can raise is embedded as a function into `PyResult`.
-/

/-- Outcome of a Python function call: it either raises an exception or
returns a value. -/
inductive PyError where
  /-- Python `UnboundLocalError`: the named local variable was referenced
  before assignment. -/
  | unboundLocal (name : String)
  /-- Python `IndexError`, from indexing `[0]` into an empty list. -/
  | indexError
  /-- An exception raised by the store's `insert(...).execute()` call. -/
  | insertRaised (msg : String)
deriving DecidableEq

inductive PyResult (α : Type) where
  | raised (e : PyError)
  | returned (v : α)
deriving DecidableEq

def PyResult.isRaised : PyResult α → Bool
  | .raised _ => true
  | .returned _ => false

/-! ### Python string primitives

`str.replace` replaces every non-overlapping occurrence left to right,
`startswith` is prefix test, `in` is substring test, `lower` maps ASCII
letters to lower case (all inputs in this repository are ASCII). -/

/-- Substring test, Python's `pat in hay` on the character lists. -/
def containsSub (pat : List Char) : List Char → Bool
  | [] => pat.isPrefixOf []
  | c :: t => pat.isPrefixOf (c :: t) || containsSub pat t

/-- Fuelled worker for `str.replace`; the fuel is the haystack length, which
always suffices because each step consumes at least one character. -/
def replaceAllFuel (pat rep : List Char) : Nat → List Char → List Char
  | _, [] => []
  | 0, hay => hay
  | fuel + 1, c :: t =>
    if !pat.isEmpty && pat.isPrefixOf (c :: t) then
      rep ++ replaceAllFuel pat rep fuel ((c :: t).drop pat.length)
    else
      c :: replaceAllFuel pat rep fuel t

/-- Python `s.replace(pat, rep)`. -/
def strReplace (s pat rep : String) : String :=
  ⟨replaceAllFuel pat.data rep.data s.data.length s.data⟩

/-- Python `s.startswith(pre)`. -/
def strStartsWith (s pre : String) : Bool :=
  pre.data.isPrefixOf s.data

/-- Python `sub in s`. -/
def strContains (s sub : String) : Bool :=
  containsSub sub.data s.data

/-- Python `s.lower()` (ASCII). -/
def strToLower (s : String) : String :=
  ⟨s.data.map Char.toLower⟩

/-- Python `s[:n]`. -/
def strTake (s : String) (n : Nat) : String :=
  ⟨s.data.take n⟩

/-! ### Data model: envelopes and message records (`backend/envelope.py`) -/

/-- The `routing` sub-dict of an envelope.  The coordinator- and worker-built
inline envelopes omit the `reply_to` key; since no code reads `reply_to` from
those envelopes, an absent key and an explicit `None` are both `none` here.
(`from` is a Lean keyword, hence `from'`.) -/
structure Routing where
  project_id : String
  from' : String
  to' : String
  reply_to : Option String
deriving DecidableEq

structure Timestamps where
  created : String
  updated : String
deriving DecidableEq

/-- The message envelope.  `payload_text` is the `payload.text` field; the
inline envelopes built by the agents carry no `timestamps` key (`none`). -/
structure Envelope where
  schema : String
  type : String
  routing : Routing
  payload_text : String
  status : String
  timestamps : Option Timestamps
  id : String
deriving DecidableEq

/-- The worker's response metadata (`_format_response_node`), attached as the
`telemetry` column of the worker's completion row. -/
structure WMetadata where
  model_used : String
  processing_time_ms : Nat
  analysis_type : String
  request_id : String
  worker_agent : String
  completed_at : String
deriving DecidableEq

/-- A row of the shared `messages` table, as the agents build it.  Rows that
omit `reply_to` or `telemetry` have `none` there. -/
structure MessageRecord where
  id : String
  project_id : String
  human_id : String
  agent_name : String
  to_agent : String
  intent : String
  status : String
  reply_to : Option String
  content : Envelope
  telemetry : Option WMetadata
deriving DecidableEq

/-- Outcome of a supabase `table('messages').insert(data).execute()` call:
it returns with the inserted row echoed in `data`, returns with empty `data`,
or raises.  A row counts as persisted exactly when the call returns echoed
data. -/
inductive InsertOutcome where
  | ok
  | noData
  | raised (msg : String)
deriving DecidableEq

/-! ### Envelope codec (`SolarEnvelopeBuilder`)

`datetime.now().isoformat()` and `str(uuid.uuid4())` are nondeterministic
externals; they enter as the explicit arguments `ts` (both timestamps) and
`u`.  Note the source builds `from` as `f"agent: {from_agent}"` — with a
space — in `create_task`, but `f"agent:{from_agent}"` in
`create_task_update`. -/

def create_task (project_id from_agent to_agent task_text : String)
    (ts : Timestamps) (u : String) : Envelope :=
  { schema := "company.a2a.v1"
    type := "task.create"
    routing := { project_id := project_id
                 from' := "agent: " ++ from_agent
                 to' := "agent:" ++ to_agent
                 reply_to := none }
    payload_text := task_text
    status := "sent"
    timestamps := some ts
    id := u }

def create_task_update (project_id from_agent progress_text : String)
    (ts : Timestamps) (u : String)
    (status : String := "processing") (reply_to : Option String := none) :
    Envelope :=
  { schema := "company.a2a.v1"
    type := "task.update"
    routing := { project_id := project_id
                 from' := "agent:" ++ from_agent
                 to' := "broadcast"
                 reply_to := reply_to }
    payload_text := progress_text
    status := status
    timestamps := some ts
    id := u }

/-! ### Store adapter (`SolarDatabaseAdapter.send_envelope`) -/

/-- The `db_data` dict built by `send_envelope`: prefixes stripped with
`.replace("agent:", "")`, the row keyed by the envelope's own id, the full
envelope kept as `content`. -/
def send_db_data (envelope : Envelope) (human_id : String) : MessageRecord :=
  let from_agent := strReplace envelope.routing.from' "agent:" ""
  let to_agent := strReplace envelope.routing.to' "agent:" ""
  { id := envelope.id
    project_id := envelope.routing.project_id
    human_id := human_id
    agent_name := from_agent
    to_agent := if to_agent ≠ "broadcast" then to_agent else "broadcast"
    intent := envelope.payload_text
    status := envelope.status
    reply_to := envelope.routing.reply_to
    content := envelope
    telemetry := none }

/-- Embeds `send_envelope`: inserts `db_data` and then
`return response.data[0] if response.data else None`.  The insert call is not
guarded, so an exception from it propagates. -/
def send_envelope (envelope : Envelope) (human_id : String)
    (ins : InsertOutcome) : PyResult (Option MessageRecord) :=
  match ins with
  | .ok => .returned (some (send_db_data envelope human_id))
  | .noData => .returned none
  | .raised msg => .raised (.insertRaised msg)

/-- Rows persisted by one `send_envelope` call. -/
def sendStoredRows (envelope : Envelope) (human_id : String)
    (ins : InsertOutcome) : List MessageRecord :=
  match ins with
  | .ok => [send_db_data envelope human_id]
  | _ => []

/-! ### Coordinator data (`moon_agent.py`) -/

/-- A Python JSON-ish value as it matters here, with Python truthiness.
`claude_results.get("requires_worker", "Not given")` can hand the delegation
guard a boolean or the default string, and `if analysis["requires_worker"]:`
tests truthiness. -/
inductive PyV where
  | pyBool (b : Bool)
  | pyStr (s : String)
  | pyNone
deriving DecidableEq

def PyV.truthy : PyV → Bool
  | .pyBool b => b
  | .pyStr s => s ≠ ""
  | .pyNone => false

/-- The task extracted by `_receive_task_node`. -/
structure TaskInfo where
  id : String
  text : String
  project_id : String
deriving DecidableEq

/-- The analysis dict built by `_analyze_task_node` on the success path. -/
structure Analysis where
  complexity : String
  requires_worker : PyV
  estimated_minutes : Option Int
  reasoning : String
deriving DecidableEq

/-- Relevant key lookups on the dict produced by `json.loads` of the
Advisor's reply (`json.loads` itself is external; each field is `none` when
the key is absent).  The prompt asks for a string complexity, a boolean
`requires_worker`, a number and a string, so those shapes are modelled. -/
structure ClaudeResults where
  complexity : Option String
  requires_worker : Option PyV
  estimated_minutes : Option Int
  reasoning : Option String
deriving DecidableEq

/-- Outcome of the Advisor interaction in `_analyze_task_node`: either the
`client.messages.create` call raised, or a reply text arrived and — after the
code-fence stripping — `json.loads` either failed (`none`) or produced a
dict.  The fence stripping only transforms the text handed to the external
parser, so it is absorbed into `parsed`. -/
inductive AdvisorOutcome where
  | failure
  | reply (parsed : Option ClaudeResults)
deriving DecidableEq

/-- The worker-completion value the coordinator keeps in
`self.state.latest_worker_response`. -/
structure WorkerResp where
  status : String
  result : String
  details : String
deriving DecidableEq

/-- Fields of `self.state.pending_delegation`. -/
structure PendingDelegation where
  worker_message_id : String
  original_task_id : String
deriving DecidableEq

/-- The coordinator's `CoordinatorMoonState` object.  `worker_response` is
initialised to `[]` in the source and never used afterwards. -/
structure PyState where
  current_task : Option TaskInfo
  worker_response : List WorkerResp
  task_status : String
  processed_messages : List String
  latest_worker_response : Option WorkerResp
  pending_delegation : Option PendingDelegation
deriving DecidableEq

/-- `CoordinatorMoonState.__init__`. -/
def initCoordinatorState : PyState :=
  { current_task := none
    worker_response := []
    task_status := "idle"
    processed_messages := []
    latest_worker_response := none
    pending_delegation := none }

/-! ### Coordinator pipeline nodes -/

/-- Embeds `_analyze_task_node`.  On the success path the analysis dict is
built with `.get` defaults.  Both failure paths are broken in the source:
the `json.JSONDecodeError` handler executes
`print(f"Claude's reasoning: {analysis['reasoning']}")` before `analysis` is
ever assigned (it is only assigned after the `json.loads` that just raised),
and the generic `except Exception` handler executes
`print(f"Here is the text: {response}")` although `response` is unassigned
when `client.messages.create` raised.  Each handler therefore raises
`UnboundLocalError` itself, and the fallback analysis dicts written below
those prints are unreachable; the exception propagates out of the node. -/
def analyzeTaskNode : AdvisorOutcome → PyResult Analysis
  | .failure => .raised (.unboundLocal "response")
  | .reply none => .raised (.unboundLocal "analysis")
  | .reply (some cr) =>
    .returned
      { complexity := cr.complexity.getD "Not given"
        requires_worker := cr.requires_worker.getD (PyV.pyStr "Not given")
        estimated_minutes := cr.estimated_minutes
        reasoning := cr.reasoning.getD "No reasoning given" }

/-- The `envelope_content` dict of `_delegate_to_worker_node`. -/
def delegateEnvelope (agent_name : String) (task : TaskInfo) (uEnv : String) :
    Envelope :=
  { schema := "company.a2a.v1"
    type := "task.update"
    routing := { project_id := task.project_id
                 from' := agent_name
                 to' := "worker"
                 reply_to := none }
    payload_text := "WORK_REQUEST: " ++ task.text
    status := "sent"
    timestamps := none
    id := uEnv }

/-- The `message_data` dict of `_delegate_to_worker_node`; `uEnv` and `uMsg`
are the two separate `str(uuid.uuid4())` draws. -/
def delegateMessageData (agent_name human_id : String) (task : TaskInfo)
    (uEnv uMsg : String) : MessageRecord :=
  { id := uMsg
    project_id := task.project_id
    human_id := human_id
    agent_name := agent_name
    to_agent := "worker"
    intent := "WORK_REQUEST: " ++ task.text
    status := "sent"
    reply_to := some task.id
    content := delegateEnvelope agent_name task uEnv
    telemetry := none }

/-- Result of `_delegate_to_worker_node`.  `pending` is the update the node
writes to `self.state.pending_delegation` (written only on a successful
insert; `none` means the node left the field alone). -/
structure DelegateOut where
  delegation_sent : Bool
  delegation_id : Option String
  error : Option String
  stored : List MessageRecord
  pending : Option PendingDelegation
deriving DecidableEq

/-- Embeds `_delegate_to_worker_node`.  The insert runs only when
`analysis["requires_worker"]` is truthy; the success branch needs
`sent.data` non-empty, the empty-data branch reports `"Insert failed"`, and
the `except` branch reports `str(e)`. -/
def delegateToWorkerNode (agent_name human_id : String) (task : TaskInfo)
    (analysis : Analysis) (uEnv uMsg : String) (ins : InsertOutcome) :
    DelegateOut :=
  if analysis.requires_worker.truthy then
    match ins with
    | .ok =>
      let row := delegateMessageData agent_name human_id task uEnv uMsg
      { delegation_sent := true
        delegation_id := some row.id
        error := none
        stored := [row]
        pending := some { worker_message_id := row.id
                          original_task_id := task.id } }
    | .noData =>
      { delegation_sent := false, delegation_id := none
        error := some "Insert failed", stored := [], pending := none }
    | .raised msg =>
      { delegation_sent := false, delegation_id := none
        error := some msg, stored := [], pending := none }
  else
    { delegation_sent := false, delegation_id := none
      error := none, stored := [], pending := none }

/-- The placeholder dict `_wait_for_response_node` substitutes when no
worker completion has been captured yet. -/
def placeholderWorkerResponse : WorkerResp :=
  { status := "Completed"
    result := "Task processed successfully"
    details := "Worker completed the analysis" }

/-- Embeds `_wait_for_response_node`.  Without a delegation it returns the
string `"Handled directly"`; otherwise
`self.state.latest_worker_response or placeholder` (a captured dict is
non-empty, hence truthy). -/
def waitForResponseNode (delegation_sent : Bool)
    (latest : Option WorkerResp) : Sum String WorkerResp :=
  if !delegation_sent then Sum.inl "Handled directly"
  else Sum.inr (latest.getD placeholderWorkerResponse)

/-- The fixed telemetry dict of `_consolidate_results_node`. -/
structure CoordTelemetry where
  coordinator_model : String
  worker_model : String
  total_processing_time : String
deriving DecidableEq

/-- The `final_result` dict of `_consolidate_results_node`. -/
structure FinalResult where
  task_id : String
  status : String
  summary : String
  worker_contribution : Sum String WorkerResp
  completed_at : String
  telemetry : CoordTelemetry
deriving DecidableEq

/-- Embeds `_consolidate_results_node`; `now` is
`datetime.now().isoformat()`. -/
def consolidateResultsNode (task : TaskInfo) (wr : Sum String WorkerResp)
    (now : String) : FinalResult :=
  { task_id := task.id
    status := "completed"
    summary := "Task completed with worker assistance"
    worker_contribution := wr
    completed_at := now
    telemetry := { coordinator_model := "claude-3.5-sonnet"
                   worker_model := "gpt-4"
                   total_processing_time := "3.2s" } }

/-- The `envelope_content` dict of `_complete_task_node`. -/
def completeEnvelope (agent_name : String) (task : TaskInfo)
    (summary uEnv : String) : Envelope :=
  { schema := "company.a2a.v1"
    type := "task.update"
    routing := { project_id := task.project_id
                 from' := agent_name
                 to' := "broadcast"
                 reply_to := none }
    payload_text := "TASK_COMPLETE: " ++ summary
    status := "done"
    timestamps := none
    id := uEnv }

/-- The `completion_data` dict of `_complete_task_node`. -/
def completionMessageData (agent_name human_id : String) (task : TaskInfo)
    (summary uEnv uMsg : String) : MessageRecord :=
  { id := uMsg
    project_id := task.project_id
    human_id := human_id
    agent_name := agent_name
    to_agent := "broadcast"
    intent := "TASK_COMPLETE: " ++ summary
    status := "done"
    reply_to := some task.id
    content := completeEnvelope agent_name task summary uEnv
    telemetry := none }

/-! ### Coordinator workflow run -/

/-- External inputs consumed by one coordinator workflow run: the Advisor
outcome, the two insert outcomes, the four `uuid.uuid4()` draws (delegate
envelope/row, completion envelope/row) and the consolidation timestamp. -/
structure RunInputs where
  advisor : AdvisorOutcome
  delegateIns : InsertOutcome
  completeIns : InsertOutcome
  envU : String
  msgU : String
  cEnvU : String
  cMsgU : String
  completed_at : String
deriving DecidableEq

/-- The keys of the final LangGraph state a completed run surfaces. -/
structure FinalOut where
  delegation_sent : Bool
  delegation_id : Option String
  delegation_error : Option String
  worker_response : Sum String WorkerResp
  final_result : FinalResult
  completion_sent : Bool
  completion_id : String
deriving DecidableEq

/-- Result of one `workflow.ainvoke` on the coordinator: rows persisted (in
order), the surfaced final state or the propagated exception, and the
`self.state` object afterwards. -/
structure RunResult where
  stored : List MessageRecord
  outcome : PyResult FinalOut
  finalState : PyState
deriving DecidableEq

/-- Embeds one coordinator pipeline run
(receive → analyze → delegate → wait → consolidate → complete) on an
incoming message row.  `_complete_task_node` is unguarded: an insert
exception propagates, and empty insert data makes `sent.data[0]` raise
`IndexError`. -/
def runWorkflow (agent_name human_id : String) (st : PyState)
    (m : MessageRecord) (inp : RunInputs) : RunResult :=
  let task : TaskInfo := { id := m.id, text := m.intent, project_id := m.project_id }
  let st1 := { st with current_task := some task }
  match analyzeTaskNode inp.advisor with
  | .raised e => { stored := [], outcome := .raised e, finalState := st1 }
  | .returned analysis =>
    let d := delegateToWorkerNode agent_name human_id task analysis
      inp.envU inp.msgU inp.delegateIns
    let st2 := { st1 with pending_delegation :=
      if d.pending.isSome then d.pending else st1.pending_delegation }
    let wr := waitForResponseNode d.delegation_sent st2.latest_worker_response
    let fr := consolidateResultsNode task wr inp.completed_at
    match inp.completeIns with
    | .raised msg =>
      { stored := d.stored, outcome := .raised (.insertRaised msg)
        finalState := st2 }
    | .noData =>
      { stored := d.stored, outcome := .raised .indexError, finalState := st2 }
    | .ok =>
      let row := completionMessageData agent_name human_id task fr.summary
        inp.cEnvU inp.cMsgU
      { stored := d.stored ++ [row]
        outcome := .returned
          { delegation_sent := d.delegation_sent
            delegation_id := d.delegation_id
            delegation_error := d.error
            worker_response := wr
            final_result := fr
            completion_sent := true
            completion_id := row.id }
        finalState := { st2 with current_task := none, task_status := "idle" } }

/-- What one `process_incoming_message` call did with its message. -/
inductive DispatchAction where
  | skipped
  | capturedCompletion
  | ignored
  | ranWorkflow (r : RunResult)
deriving DecidableEq

/-- Embeds `process_incoming_message`: skip ids already in
`processed_messages`, otherwise claim the id, capture `WORK_COMPLETE:` rows
into `latest_worker_response`, ignore the coordinator's own
`WORK_REQUEST:`/`TASK_COMPLETE:` traffic, and run every other row through
the workflow. -/
def processIncomingMessage (agent_name human_id : String) (st : PyState)
    (m : MessageRecord) (inp : RunInputs) : PyState × DispatchAction :=
  if m.id ∈ st.processed_messages then (st, .skipped)
  else
    let st1 := { st with processed_messages := m.id :: st.processed_messages }
    if strStartsWith m.intent "WORK_COMPLETE:" then
      let captured : WorkerResp :=
        { status := "Completed"
          result := strReplace m.intent "WORK_COMPLETE: " ""
          details := "Worker completed successfully" }
      ({ st1 with latest_worker_response := some captured },
       .capturedCompletion)
    else if strStartsWith m.intent "WORK_REQUEST:" ||
        strStartsWith m.intent "TASK_COMPLETE:" then
      (st1, .ignored)
    else
      let r := runWorkflow agent_name human_id st1 m inp
      (r.finalState, .ranWorkflow r)

/-! ### Worker data (`backend/moon_agent_two.py`) -/

/-- The request dict built by `_receive_request_node`.  The source also
stores the raw row under `original_message`; no later stage reads that key,
so it is not carried here. -/
structure WRequest where
  id : String
  text : String
  project_id : String
deriving DecidableEq

/-- The analysis dict built by `_analyze_request_node`; `estimated_time` is
the `time.time()` sample. -/
structure WAnalysis where
  type : String
  prompt_template : String
  complexity : String
  estimated_time : Nat
deriving DecidableEq

/-- The `self.state.ai_response` dict.  On success `tokens_used` is the
input+output token sum and `error` is absent; on fallback `tokens_used` is
absent and `error` holds `str(e)`. -/
structure AiResponse where
  content : String
  model : String
  processing_time_ms : Nat
  tokens_used : Option Nat
  error : Option String
  analysis_type : String
deriving DecidableEq

/-- Outcome of the worker's Anthropic call in `_call_ai_model_node`. -/
inductive AiOutcome where
  | ok (text : String) (ms input_tokens output_tokens : Nat)
  | failed (err : String)
deriving DecidableEq

/-- The `formatted_response` dict of `_format_response_node`. -/
structure FormattedResponse where
  summary : String
  detailed_analysis : String
  metadata : WMetadata
deriving DecidableEq

/-- The worker's `WorkerState` object.  `analysis_result` is initialised to
`None` and never written. -/
structure WState where
  current_request : Option WRequest
  analysis_result : Option WAnalysis
  processed_messages : List String
  ai_response : Option AiResponse
deriving DecidableEq

/-- `WorkerState.__init__`. -/
def initWorkerState : WState :=
  { current_request := none
    analysis_result := none
    processed_messages := []
    ai_response := none }

/-! ### Worker pipeline nodes -/

/-- Embeds `_analyze_request_node`: ordered keyword classification over the
lower-cased request text (first matching group wins, `general_task` default)
and a length-based complexity tag on the original text. -/
def analyze_request_node (request : WRequest) (now : Nat) : WAnalysis :=
  let request_text := strToLower request.text
  let tp :=
    if ["security", "vulnerability", "exploit"].any
        (fun k => strContains request_text k) then
      ("security_review", "security_analysis")
    else if ["code", "review", "bug", "error"].any
        (fun k => strContains request_text k) then
      ("code_review", "code_analysis")
    else if ["test", "testing", "qa"].any
        (fun k => strContains request_text k) then
      ("test_analysis", "test_strategy")
    else
      ("general_analysis", "general_task")
  { type := tp.1
    prompt_template := tp.2
    complexity := if request.text.length > 50 then "high" else "medium"
    estimated_time := now }

/-- Embeds `_call_ai_model_node`.  The call is guarded: on failure the node
substitutes the templated fallback string, tags `model="fallback"`, records
the error, and never re-raises.  On success the recorded model string is the
literal `"claude-3-sonnet-20240229"` from the source. -/
def call_ai_model_node (request : WRequest) (analysis : WAnalysis)
    (out : AiOutcome) : AiResponse :=
  match out with
  | .ok text ms tin tout =>
    { content := text
      model := "claude-3-sonnet-20240229"
      processing_time_ms := ms
      tokens_used := some (tin + tout)
      error := none
      analysis_type := analysis.type }
  | .failed err =>
    { content := "Analysis completed for '" ++ strTake request.text 50 ++
        "...'. Unable to connect to AI model, providing basic analysis."
      model := "fallback"
      processing_time_ms := 100
      tokens_used := none
      error := some err
      analysis_type := analysis.type }

/-- Embeds `_format_response_node`; returns the formatted response and the
`summary_text` (summary plus the first 100 characters of the content);
`now` is `datetime.now().isoformat()`. -/
def format_response_node (agent_name : String) (request : WRequest)
    (analysis : WAnalysis) (ai : AiResponse) (now : String) :
    FormattedResponse × String :=
  let fr : FormattedResponse :=
    { summary := "AI-powered " ++ analysis.type ++ " completed"
      detailed_analysis := ai.content
      metadata := { model_used := ai.model
                    processing_time_ms := ai.processing_time_ms
                    analysis_type := ai.analysis_type
                    request_id := request.id
                    worker_agent := agent_name
                    completed_at := now } }
  (fr, fr.summary ++ ": " ++ strTake ai.content 100 ++ "...")

/-- The `envelope_content` dict of `_send_result_node`. -/
def resultEnvelope (agent_name : String) (request : WRequest)
    (summary_text uEnv : String) : Envelope :=
  { schema := "company.a2a.v1"
    type := "task.update"
    routing := { project_id := request.project_id
                 from' := agent_name
                 to' := "coordinator"
                 reply_to := none }
    payload_text := "WORK_COMPLETE: " ++ summary_text
    status := "done"
    timestamps := none
    id := uEnv }

/-- The `completion_data` dict of `_send_result_node`; carries the response
metadata as `telemetry` and answers the work-request row `request.id` via
`reply_to`. -/
def resultMessageData (agent_name human_id : String) (request : WRequest)
    (summary_text : String) (meta : WMetadata) (uEnv uMsg : String) :
    MessageRecord :=
  { id := uMsg
    project_id := request.project_id
    human_id := human_id
    agent_name := agent_name
    to_agent := "coordinator"
    intent := "WORK_COMPLETE: " ++ summary_text
    status := "done"
    reply_to := some request.id
    content := resultEnvelope agent_name request summary_text uEnv
    telemetry := some meta }

/-- Result of `_send_result_node`.  The whole insert is inside
`try/except Exception`, so empty insert data (`sent.data[0]` raising
`IndexError`) and an insert exception both land in the handler and report
`result_sent=False`; the node never re-raises. -/
structure SendOut where
  result_sent : Bool
  result_id : Option String
  error : Option String
  stored : List MessageRecord
deriving DecidableEq

/-- Embeds `_send_result_node`. -/
def send_result_node (agent_name human_id : String) (request : WRequest)
    (formatted : FormattedResponse) (summary_text : String)
    (uEnv uMsg : String) (ins : InsertOutcome) : SendOut :=
  let row := resultMessageData agent_name human_id request summary_text
    formatted.metadata uEnv uMsg
  match ins with
  | .ok =>
    { result_sent := true, result_id := some row.id, error := none
      stored := [row] }
  | .noData =>
    { result_sent := false, result_id := none
      error := some "list index out of range", stored := [] }
  | .raised msg =>
    { result_sent := false, result_id := none, error := some msg
      stored := [] }

/-! ### Worker workflow run -/

/-- External inputs consumed by one worker workflow run. -/
structure WInputs where
  ai : AiOutcome
  ins : InsertOutcome
  uEnv : String
  uMsg : String
  now : Nat
  completed_at : String
deriving DecidableEq

/-- Result of one `workflow.ainvoke` on the worker. -/
structure WRunResult where
  stored : List MessageRecord
  result_sent : Bool
  result_id : Option String
  error : Option String
  finalState : WState
deriving DecidableEq

/-- Embeds one worker pipeline run
(receive → analyze → call model → format → send).  `current_request` and
`ai_response` are cleared only when the result insert succeeded.  No node of
this pipeline re-raises, so the run is total. -/
def workerRun (agent_name human_id : String) (st : WState)
    (m : MessageRecord) (inp : WInputs) : WRunResult :=
  let request : WRequest :=
    { id := m.id
      text := strReplace m.intent "WORK_REQUEST: " ""
      project_id := m.project_id }
  let st1 := { st with current_request := some request }
  let analysis := analyze_request_node request inp.now
  let ai := call_ai_model_node request analysis inp.ai
  let st2 := { st1 with ai_response := some ai }
  let fs := format_response_node agent_name request analysis ai inp.completed_at
  let s := send_result_node agent_name human_id request fs.1 fs.2
    inp.uEnv inp.uMsg inp.ins
  let st3 :=
    if s.result_sent then
      { st2 with current_request := none, ai_response := none }
    else st2
  { stored := s.stored
    result_sent := s.result_sent
    result_id := s.result_id
    error := s.error
    finalState := st3 }

/-- What one `process_work_request` call did with its message. -/
inductive WDispatch where
  | skipped
  | ranWorkflow (r : WRunResult)
deriving DecidableEq

/-- Embeds `process_work_request`: skip ids already in
`processed_messages`, otherwise claim the id and run the workflow (the
`ainvoke` is wrapped in `try/except`, and the embedded run is total). -/
def processWorkRequest (agent_name human_id : String) (st : WState)
    (m : MessageRecord) (inp : WInputs) : WState × WDispatch :=
  if m.id ∈ st.processed_messages then (st, .skipped)
  else
    let st1 := { st with processed_messages := m.id :: st.processed_messages }
    let r := workerRun agent_name human_id st1 m inp
    (r.finalState, .ranWorkflow r)

/-! ### Sample values used by the concrete theorems below -/

def tsSample : Timestamps :=
  { created := "2026-01-01T00:00:00", updated := "2026-01-01T00:00:00" }

def envSample : Envelope :=
  create_task "proj-1" "coordinator" "worker" "Test task" tsSample "uuid-env-1"

def taskSample : TaskInfo :=
  { id := "task-1"
    text := "Refactor the login module for better error handling"
    project_id := "proj-1" }

def analysisTrue : Analysis :=
  { complexity := "high", requires_worker := PyV.pyBool true
    estimated_minutes := some 5, reasoning := "needs a worker" }

def analysisFalse : Analysis :=
  { complexity := "low", requires_worker := PyV.pyBool false
    estimated_minutes := some 1, reasoning := "simple" }

/-- An incoming external task row addressed to the coordinator. -/
def msgTaskSample : MessageRecord :=
  { id := "msg-1", project_id := "proj-1", human_id := "human-1"
    agent_name := "cli-user", to_agent := "coordinator"
    intent := "Summarize the design doc", status := "sent"
    reply_to := none, content := envSample, telemetry := none }

/-- A worker completion row as observed by the coordinator's poller. -/
def msgCompleteSample : MessageRecord :=
  { id := "msg-2", project_id := "proj-1", human_id := "human-1"
    agent_name := "worker", to_agent := "coordinator"
    intent := "WORK_COMPLETE: all done", status := "done"
    reply_to := some "dlg-1", content := envSample, telemetry := none }

/-- A delegation (work-request) row as observed by the worker's poller. -/
def msgWorkReqSample : MessageRecord :=
  { id := "wq-1", project_id := "proj-1", human_id := "human-1"
    agent_name := "coordinator", to_agent := "worker"
    intent := "WORK_REQUEST: Check for SQL injection vulnerability"
    status := "sent", reply_to := some "task-1", content := envSample
    telemetry := none }

def claudeSample : ClaudeResults :=
  { complexity := some "low", requires_worker := some (PyV.pyBool false)
    estimated_minutes := some 2, reasoning := some "easy" }

def inputsSample : RunInputs :=
  { advisor := .reply (some claudeSample)
    delegateIns := .ok, completeIns := .ok
    envU := "u-e1", msgU := "u-m1", cEnvU := "u-e2", cMsgU := "u-m2"
    completed_at := "2026-01-01T00:01:00" }

/-- The coordinator's run inputs when the Advisor reply is not valid JSON. -/
def inputsMalformed : RunInputs :=
  { inputsSample with advisor := .reply none }

def winpSample : WInputs :=
  { ai := .ok "Looks fine overall" 120 10 20, ins := .ok
    uEnv := "wu-e", uMsg := "wu-m", now := 0
    completed_at := "2026-01-01T00:02:00" }

def wrSample : WorkerResp :=
  { status := "Completed", result := "WORK_COMPLETE result text"
    details := "details" }

def metaSample : WMetadata :=
  { model_used := "fallback", processing_time_ms := 100
    analysis_type := "general_analysis", request_id := "wq-1"
    worker_agent := "worker", completed_at := "2026-01-01T00:02:00" }

/-! ### Claim theorems -/

/-- C6: every envelope from `create_task` has status `"sent"`, type
`"task.create"`, and its id is the freshly drawn UUID, so two calls drawing
distinct UUIDs yield distinct ids; every envelope from `create_task_update`
has type `"task.update"`, routing.to `"broadcast"`, and status
`"processing"` unless overridden by the status argument. -/
theorem codec_fields (p f t x : String) (ts ts2 : Timestamps) (u u2 : String)
    (s : String) (r : Option String) (h : u ≠ u2) :
    (create_task p f t x ts u).status = "sent" ∧
    (create_task p f t x ts u).type = "task.create" ∧
    (create_task p f t x ts u).id = u ∧
    (create_task p f t x ts u).id ≠ (create_task p f t x ts2 u2).id ∧
    (create_task_update p f x ts u).type = "task.update" ∧
    (create_task_update p f x ts u).routing.to' = "broadcast" ∧
    (create_task_update p f x ts u).status = "processing" ∧
    (create_task_update p f x ts u s r).status = s ∧
    (create_task_update p f x ts u s r).routing.to' = "broadcast" :=
  ⟨rfl, rfl, rfl, h, rfl, rfl, rfl, rfl, rfl⟩

/-- Witness for `codec_fields` at concrete inputs. -/
theorem codec_fields_witness :
    (create_task "p" "alice" "bob" "hi" tsSample "u-1").status = "sent" ∧
    (create_task "p" "alice" "bob" "hi" tsSample "u-1").id ≠
      (create_task "p" "alice" "bob" "hi" tsSample "u-2").id ∧
    (create_task_update "p" "alice" "hello" tsSample "u-1").status =
      "processing" ∧
    (create_task_update "p" "alice" "hello" tsSample "u-1" "done"
      (some "x")).status = "done" :=
  have h := codec_fields "p" "alice" "bob" "hi" tsSample tsSample "u-1" "u-2"
    "done" (some "x") (by decide)
  ⟨h.1, h.2.2.2.1, h.2.2.2.2.2.2.1, h.2.2.2.2.2.2.2.1⟩

/-- C7: the worker's `analyze_request` classifies by ordered keyword match
with the first matching category winning and `general_task` as default —
witnessed on the four literal cases — and tags complexity `"high"` exactly
when the request text exceeds 50 characters, else `"medium"`. -/
theorem worker_classification :
    (analyze_request_node
      ⟨"r1", "Check for SQL injection vulnerability", "p"⟩ 0).prompt_template =
      "security_analysis" ∧
    (analyze_request_node
      ⟨"r2", "There\x27s a bug in this function", "p"⟩ 0).prompt_template =
      "code_analysis" ∧
    (analyze_request_node
      ⟨"r3", "Need a QA test plan", "p"⟩ 0).prompt_template =
      "test_strategy" ∧
    (analyze_request_node
      ⟨"r4", "Explain microservices", "p"⟩ 0).prompt_template =
      "general_task" ∧
    ∀ (req : WRequest) (now : Nat),
      (analyze_request_node req now).complexity =
        if req.text.length > 50 then "high" else "medium" :=
  ⟨by decide, by decide, by decide, by decide, fun req now => rfl⟩

/-- C10: the rows built by the coordinator's delegate and complete stages
and by the worker's send-result stage draw the record id and the embedded
envelope id as two separate fresh UUIDs, so they differ whenever the two
draws differ; the adapter's send path instead keys the record by the
envelope's own id. -/
theorem fresh_ids_distinct (agent_name human_id summary stext : String)
    (task : TaskInfo) (req : WRequest) (meta : WMetadata) (u1 u2 : String)
    (h : u1 ≠ u2) :
    (delegateMessageData agent_name human_id task u1 u2).id ≠
      (delegateMessageData agent_name human_id task u1 u2).content.id ∧
    (completionMessageData agent_name human_id task summary u1 u2).id ≠
      (completionMessageData agent_name human_id task summary u1 u2).content.id ∧
    (resultMessageData agent_name human_id req stext meta u1 u2).id ≠
      (resultMessageData agent_name human_id req stext meta u1 u2).content.id ∧
    ∀ envelope : Envelope,
      (send_db_data envelope human_id).id =
        (send_db_data envelope human_id).content.id :=
  ⟨h.symm, h.symm, h.symm, fun _ => rfl⟩

/-- Witness for `fresh_ids_distinct` at concrete inputs. -/
theorem fresh_ids_distinct_witness :
    (delegateMessageData "coordinator" "h0" taskSample "u-a" "u-b").id ≠
      (delegateMessageData "coordinator" "h0" taskSample "u-a" "u-b").content.id ∧
    (send_db_data envSample "h0").id = (send_db_data envSample "h0").content.id :=
  have h := fresh_ids_distinct "coordinator" "h0" "sum" "stext" taskSample
    ⟨"wq-1", "t", "p"⟩ metaSample "u-a" "u-b" (by decide)
  ⟨h.1, h.2.2.2 envSample⟩

/-- C1 counterexample: with `requires_worker=true` but an insert that
reports no data, `delegate_to_worker` returns `delegation_sent=false` and
persists no row, refuting the claim's unconditional one-row /
`delegation_sent=true` promise for `requires_worker=true` runs. -/
theorem delegation_routing_counterexample :
    analysisTrue.requires_worker = PyV.pyBool true ∧
    (delegateToWorkerNode "coordinator" "h0" taskSample analysisTrue "u1" "u2"
      InsertOutcome.noData).delegation_sent = false ∧
    (delegateToWorkerNode "coordinator" "h0" taskSample analysisTrue "u1" "u2"
      InsertOutcome.noData).stored = [] :=
  ⟨rfl, rfl, rfl⟩

/-- C1 (amended): when the analysis has `requires_worker=true` and the
insert reports data, `delegate_to_worker` persists exactly one row with
`to_agent="worker"`, intent `"WORK_REQUEST: "` + task text and `reply_to` =
the task id, and returns `delegation_sent=true`; when the insert reports no
data or raises it persists nothing and returns `delegation_sent=false` with
the error recorded; with `requires_worker=false` it persists nothing and
returns `delegation_sent=false` for every insert outcome. -/
theorem delegation_routing_amended (agent_name human_id : String)
    (task : TaskInfo) (analysis : Analysis) (u1 u2 : String) :
    (analysis.requires_worker = PyV.pyBool true →
      (delegateToWorkerNode agent_name human_id task analysis u1 u2
        InsertOutcome.ok).stored =
        [delegateMessageData agent_name human_id task u1 u2] ∧
      (delegateToWorkerNode agent_name human_id task analysis u1 u2
        InsertOutcome.ok).delegation_sent = true ∧
      (delegateMessageData agent_name human_id task u1 u2).to_agent =
        "worker" ∧
      (delegateMessageData agent_name human_id task u1 u2).intent =
        "WORK_REQUEST: " ++ task.text ∧
      (delegateMessageData agent_name human_id task u1 u2).reply_to =
        some task.id) ∧
    (analysis.requires_worker = PyV.pyBool true → ∀ msg,
      ((delegateToWorkerNode agent_name human_id task analysis u1 u2
        InsertOutcome.noData).delegation_sent = false ∧
       (delegateToWorkerNode agent_name human_id task analysis u1 u2
        InsertOutcome.noData).stored = [] ∧
       (delegateToWorkerNode agent_name human_id task analysis u1 u2
        InsertOutcome.noData).error = some "Insert failed") ∧
      ((delegateToWorkerNode agent_name human_id task analysis u1 u2
        (InsertOutcome.raised msg)).delegation_sent = false ∧
       (delegateToWorkerNode agent_name human_id task analysis u1 u2
        (InsertOutcome.raised msg)).stored = [] ∧
       (delegateToWorkerNode agent_name human_id task analysis u1 u2
        (InsertOutcome.raised msg)).error = some msg)) ∧
    (analysis.requires_worker = PyV.pyBool false → ∀ ins,
      (delegateToWorkerNode agent_name human_id task analysis u1 u2
        ins).delegation_sent = false ∧
      (delegateToWorkerNode agent_name human_id task analysis u1 u2
        ins).stored = []) := by
  refine ⟨fun h => ?_, fun h msg => ?_, fun h ins => ?_⟩
  · exact ⟨by simp [delegateToWorkerNode, PyV.truthy, h],
      by simp [delegateToWorkerNode, PyV.truthy, h], rfl, rfl, rfl⟩
  · simp [delegateToWorkerNode, PyV.truthy, h]
  · cases ins <;> simp [delegateToWorkerNode, PyV.truthy, h]

/-- Witness for `delegation_routing_amended` at concrete inputs. -/
theorem delegation_routing_amended_witness :
    (delegateToWorkerNode "coordinator" "h0" taskSample analysisTrue "u1" "u2"
      InsertOutcome.ok).delegation_sent = true ∧
    (delegateToWorkerNode "coordinator" "h0" taskSample analysisTrue "u1" "u2"
      InsertOutcome.ok).stored =
      [delegateMessageData "coordinator" "h0" taskSample "u1" "u2"] ∧
    (delegateToWorkerNode "coordinator" "h0" taskSample analysisFalse "u1" "u2"
      InsertOutcome.ok).delegation_sent = false :=
  have hT := (delegation_routing_amended "coordinator" "h0" taskSample
    analysisTrue "u1" "u2").1 rfl
  have hF := (delegation_routing_amended "coordinator" "h0" taskSample
    analysisFalse "u1" "u2").2.2 rfl InsertOutcome.ok
  ⟨hT.2.1, hT.1, hF.1⟩

/-- C2 (code bug): when the Advisor call raises, or its reply is malformed
JSON, the exception handlers in `_analyze_task_node` themselves raise
`UnboundLocalError` (their debug prints reference `response` resp.
`analysis` before assignment), so the documented fallback analysis is never
substituted and the run aborts instead of completing the remaining stages;
only the "zero WORK_REQUEST rows" half of the claim survives, vacuously. -/
theorem analyze_task_fallback_unreachable :
    analyzeTaskNode AdvisorOutcome.failure =
      PyResult.raised (PyError.unboundLocal "response") ∧
    analyzeTaskNode (AdvisorOutcome.reply none) =
      PyResult.raised (PyError.unboundLocal "analysis") ∧
    (runWorkflow "coordinator" "h0" initCoordinatorState msgTaskSample
      inputsMalformed).outcome =
      PyResult.raised (PyError.unboundLocal "analysis") ∧
    (runWorkflow "coordinator" "h0" initCoordinatorState msgTaskSample
      inputsMalformed).stored = [] :=
  ⟨rfl, rfl, rfl, rfl⟩

/-- C5 counterexample: when the insert reports no data, `send_envelope`
raises nothing and simply returns `None` — no StoreError is signalled. -/
theorem send_envelope_nodata_counterexample :
    (send_envelope envSample "h0" InsertOutcome.noData).isRaised = false ∧
    send_envelope envSample "h0" InsertOutcome.noData =
      PyResult.returned none :=
  ⟨rfl, rfl⟩

/-- C5 (amended): `send_envelope` returns the inserted record when the
insert reports data, returns `None` (raising nothing) when it reports no
data, and only propagates an exception when the insert call itself
raises. -/
theorem send_envelope_behavior (envelope : Envelope) (human_id : String) :
    send_envelope envelope human_id InsertOutcome.ok =
      PyResult.returned (some (send_db_data envelope human_id)) ∧
    sendStoredRows envelope human_id InsertOutcome.ok =
      [send_db_data envelope human_id] ∧
    send_envelope envelope human_id InsertOutcome.noData =
      PyResult.returned none ∧
    ∀ msg, send_envelope envelope human_id (InsertOutcome.raised msg) =
      PyResult.raised (PyError.insertRaised msg) :=
  ⟨rfl, rfl, rfl, fun _ => rfl⟩

/-! ### String lemmas for the adapter's prefix stripping -/

theorem string_data_eq {a b : String} (h : a.data = b.data) : a = b := by
  cases a; cases b; exact congrArg String.mk h

theorem strDataAppend (a b : String) : (a ++ b).data = a.data ++ b.data := by
  cases a; cases b; rfl

theorem isPrefixOf_self_append (l r : List Char) :
    l.isPrefixOf (l ++ r) = true := by
  induction l with
  | nil => simp [List.isPrefixOf]
  | cons c t ih => simp [List.isPrefixOf, ih]

theorem containsSub_cons (pat : List Char) (c : Char) (t : List Char) :
    containsSub pat (c :: t) = (pat.isPrefixOf (c :: t) || containsSub pat t) :=
  rfl

theorem replaceAllFuel_of_not_contains (pat rep : List Char) :
    ∀ fuel hay, containsSub pat hay = false →
      replaceAllFuel pat rep fuel hay = hay := by
  intro fuel
  induction fuel with
  | zero => intro hay _; cases hay <;> rfl
  | succ n ih =>
    intro hay h
    cases hay with
    | nil => rfl
    | cons c t =>
      rw [containsSub_cons, Bool.or_eq_false_iff] at h
      simp [replaceAllFuel, h.1, ih t h.2]

theorem replaceAllFuel_strip (pat rest rep : List Char) (hne : pat ≠ [])
    (hc : containsSub pat rest = false) :
    replaceAllFuel pat rep (pat ++ rest).length (pat ++ rest) = rep ++ rest := by
  cases pat with
  | nil => exact absurd rfl hne
  | cons p ps =>
    have hpre : (p :: ps).isPrefixOf (p :: (ps ++ rest)) = true := by
      have h1 := isPrefixOf_self_append (p :: ps) rest
      rwa [List.cons_append] at h1
    have hdrop : (p :: (ps ++ rest)).drop (p :: ps).length = rest := by
      have h1 := List.drop_left ps rest
      simp only [List.length_cons, List.drop_succ_cons]
      exact h1
    simp [replaceAllFuel, hpre, hdrop,
      replaceAllFuel_of_not_contains (p :: ps) rep _ rest hc]

theorem strReplace_append_strip (pat rest : String) (hne : pat.data ≠ [])
    (hc : containsSub pat.data rest.data = false) :
    strReplace (pat ++ rest) pat "" = rest := by
  apply string_data_eq
  show replaceAllFuel pat.data [] (pat ++ rest).data.length
    (pat ++ rest).data = rest.data
  rw [strDataAppend]
  simpa using replaceAllFuel_strip pat.data rest.data [] hne hc

/-- C4 counterexample: `create_task` builds `from` as `"agent: coordinator"`
(with a space) while the adapter strips only `"agent:"`, so the stored
record's `agent_name` is `" coordinator"`, not the original `from`. -/
theorem roundtrip_counterexample :
    (send_db_data (create_task "proj-1" "coordinator" "worker" "Test task"
      tsSample "u-1") "h0").agent_name = " coordinator" ∧
    (send_db_data (create_task "proj-1" "coordinator" "worker" "Test task"
      tsSample "u-1") "h0").agent_name ≠ "coordinator" := by
  exact ⟨by decide, by decide⟩

/-- C4 (amended): for an envelope built by `create_task(p, f, t, x)` and put
through the adapter's send path (with `f` and `t` not containing
`"agent:"`), the stored record's `content` is the original envelope
unchanged and its `to_agent` equals `t` — `"broadcast"` iff `t` denotes
broadcast — but its `agent_name` is a single space followed by `f`, because
`create_task`'s `from` prefix is `"agent: "` with a space and
`replace("agent:", "")` leaves that space behind. -/
theorem roundtrip_amended (p f t x human_id : String) (ts : Timestamps)
    (u : String)
    (hf : containsSub "agent:".data f.data = false)
    (ht : containsSub "agent:".data t.data = false) :
    (send_db_data (create_task p f t x ts u) human_id).content =
      create_task p f t x ts u ∧
    (send_db_data (create_task p f t x ts u) human_id).agent_name = " " ++ f ∧
    (send_db_data (create_task p f t x ts u) human_id).to_agent = t ∧
    ((send_db_data (create_task p f t x ts u) human_id).to_agent =
        "broadcast" ↔ t = "broadcast") := by
  have hne : ("agent:" : String).data ≠ [] := by decide
  have hto : strReplace ("agent:" ++ t) "agent:" "" = t :=
    strReplace_append_strip "agent:" t hne ht
  have hfrom : strReplace ("agent: " ++ f) "agent:" "" = " " ++ f := by
    have e1 : ("agent: " ++ f) = "agent:" ++ (" " ++ f) := by
      apply string_data_eq
      simp only [strDataAppend]
      rfl
    rw [e1]
    apply strReplace_append_strip "agent:" (" " ++ f) hne
    have hd : (" " ++ f).data = ' ' :: f.data := by
      rw [strDataAppend]; rfl
    rw [hd, containsSub_cons]
    have hpre : ("agent:".data).isPrefixOf (' ' :: f.data) = false := rfl
    rw [hpre, hf]
    rfl
  have hta : (send_db_data (create_task p f t x ts u) human_id).to_agent = t := by
    show (if strReplace ("agent:" ++ t) "agent:" "" ≠ "broadcast"
        then strReplace ("agent:" ++ t) "agent:" "" else "broadcast") = t
    rw [hto]
    by_cases hb : t = "broadcast"
    · simp [hb]
    · simp [hb]
  refine ⟨rfl, hfrom, hta, ?_⟩
  rw [hta]

/-- Witness for `roundtrip_amended` at concrete inputs. -/
theorem roundtrip_amended_witness :
    (send_db_data (create_task "p" "coordinator" "worker" "hi" tsSample "u-1")
      "h0").content = create_task "p" "coordinator" "worker" "hi" tsSample "u-1" ∧
    (send_db_data (create_task "p" "coordinator" "worker" "hi" tsSample "u-1")
      "h0").agent_name = " " ++ "coordinator" ∧
    (send_db_data (create_task "p" "coordinator" "worker" "hi" tsSample "u-1")
      "h0").to_agent = "worker" ∧
    ((send_db_data (create_task "p" "coordinator" "worker" "hi" tsSample "u-1")
      "h0").to_agent = "broadcast" ↔ ("worker" : String) = "broadcast") :=
  roundtrip_amended "p" "coordinator" "worker" "hi" "h0" tsSample "u-1"
    (by decide) (by decide)

/-! ### Frame lemmas for the dispatch paths -/

theorem strStartsWith_append (pre s : String) :
    strStartsWith (pre ++ s) pre = true := by
  unfold strStartsWith
  rw [strDataAppend]
  exact isPrefixOf_self_append _ _

theorem runWorkflow_frame (agent_name human_id : String) (st : PyState)
    (m : MessageRecord) (inp : RunInputs) :
    (runWorkflow agent_name human_id st m inp).finalState.processed_messages =
      st.processed_messages ∧
    (runWorkflow agent_name human_id st m inp).finalState.latest_worker_response =
      st.latest_worker_response := by
  unfold runWorkflow
  cases hA : analyzeTaskNode inp.advisor <;> cases hC : inp.completeIns <;> simp

theorem workerRun_processed (agent_name human_id : String) (st : WState)
    (m : MessageRecord) (inp : WInputs) :
    (workerRun agent_name human_id st m inp).finalState.processed_messages =
      st.processed_messages := by
  cases hI : inp.ins <;> simp [workerRun, send_result_node, hI]

theorem processIncomingMessage_skip (agent_name human_id : String)
    (st : PyState) (m : MessageRecord) (inp : RunInputs)
    (h : m.id ∈ st.processed_messages) :
    processIncomingMessage agent_name human_id st m inp = (st, .skipped) := by
  simp [processIncomingMessage, h]

theorem mem_processed_after (agent_name human_id : String) (st : PyState)
    (m : MessageRecord) (inp : RunInputs) :
    m.id ∈ (processIncomingMessage agent_name human_id st m inp).1.processed_messages := by
  unfold processIncomingMessage
  split
  · next h => exact h
  · split
    · exact List.mem_cons_self _ _
    · split
      · exact List.mem_cons_self _ _
      · rw [(runWorkflow_frame agent_name human_id _ m inp).1]
        exact List.mem_cons_self _ _

theorem processWorkRequest_skip (agent_name human_id : String) (st : WState)
    (m : MessageRecord) (inp : WInputs)
    (h : m.id ∈ st.processed_messages) :
    processWorkRequest agent_name human_id st m inp = (st, .skipped) := by
  simp [processWorkRequest, h]

theorem wmem_processed_after (agent_name human_id : String) (st : WState)
    (m : MessageRecord) (inp : WInputs) :
    m.id ∈ (processWorkRequest agent_name human_id st m inp).1.processed_messages := by
  unfold processWorkRequest
  split
  · next h => exact h
  · rw [workerRun_processed]
    exact List.mem_cons_self _ _

/-- C3: dispatching the same message id twice through one poller instance
executes the workflow exactly once — the first dispatch claims the id
before running the pipeline, the second dispatch of that id is silently
skipped leaving the state unchanged; this holds for the coordinator's
`process_incoming_message` and the worker's `process_work_request` alike. -/
theorem dispatch_idempotent (agent_name human_id : String) (st : PyState)
    (m : MessageRecord) (inp inp2 : RunInputs) (wagent whuman : String)
    (wst : WState) (wm : MessageRecord) (winp winp2 : WInputs) :
    ((processIncomingMessage agent_name human_id
        (processIncomingMessage agent_name human_id st m inp).1 m inp2) =
      ((processIncomingMessage agent_name human_id st m inp).1,
        DispatchAction.skipped)) ∧
    (m.id ∉ st.processed_messages →
      strStartsWith m.intent "WORK_COMPLETE:" = false →
      strStartsWith m.intent "WORK_REQUEST:" = false →
      strStartsWith m.intent "TASK_COMPLETE:" = false →
      (processIncomingMessage agent_name human_id st m inp).2 =
        DispatchAction.ranWorkflow (runWorkflow agent_name human_id
          { st with processed_messages := m.id :: st.processed_messages }
          m inp)) ∧
    ((processWorkRequest wagent whuman
        (processWorkRequest wagent whuman wst wm winp).1 wm winp2) =
      ((processWorkRequest wagent whuman wst wm winp).1,
        WDispatch.skipped)) ∧
    (wm.id ∉ wst.processed_messages →
      (processWorkRequest wagent whuman wst wm winp).2 =
        WDispatch.ranWorkflow (workerRun wagent whuman
          { wst with processed_messages := wm.id :: wst.processed_messages }
          wm winp)) := by
  refine ⟨?_, fun h1 h2 h3 h4 => ?_, ?_, fun h1 => ?_⟩
  · exact processIncomingMessage_skip _ _ _ _ _
      (mem_processed_after _ _ _ _ inp)
  · simp [processIncomingMessage, h1, h2, h3, h4]
  · exact processWorkRequest_skip _ _ _ _ _
      (wmem_processed_after _ _ _ _ winp)
  · simp [processWorkRequest, h1]

/-- Witness for `dispatch_idempotent` at concrete inputs. -/
theorem dispatch_idempotent_witness :
    (processIncomingMessage "coordinator" "h0"
        (processIncomingMessage "coordinator" "h0" initCoordinatorState
          msgTaskSample inputsSample).1 msgTaskSample inputsSample) =
      ((processIncomingMessage "coordinator" "h0" initCoordinatorState
          msgTaskSample inputsSample).1, DispatchAction.skipped) ∧
    (processIncomingMessage "coordinator" "h0" initCoordinatorState
        msgTaskSample inputsSample).2 =
      DispatchAction.ranWorkflow (runWorkflow "coordinator" "h0"
        { initCoordinatorState with
            processed_messages := msgTaskSample.id ::
              initCoordinatorState.processed_messages }
        msgTaskSample inputsSample) ∧
    (processWorkRequest "worker" "h0"
        (processWorkRequest "worker" "h0" initWorkerState msgWorkReqSample
          winpSample).1 msgWorkReqSample winpSample) =
      ((processWorkRequest "worker" "h0" initWorkerState msgWorkReqSample
          winpSample).1, WDispatch.skipped) ∧
    (processWorkRequest "worker" "h0" initWorkerState msgWorkReqSample
        winpSample).2 =
      WDispatch.ranWorkflow (workerRun "worker" "h0"
        { initWorkerState with
            processed_messages := msgWorkReqSample.id ::
              initWorkerState.processed_messages }
        msgWorkReqSample winpSample) :=
  have h := dispatch_idempotent "coordinator" "h0" initCoordinatorState
    msgTaskSample inputsSample inputsSample "worker" "h0" initWorkerState
    msgWorkReqSample winpSample winpSample
  ⟨h.1, h.2.1 (by decide) (by decide) (by decide) (by decide), h.2.2.1,
    h.2.2.2 (by decide)⟩

/-- C8: every row the coordinator's delegate stage persists carries
`reply_to` equal to the originating task's id, and every completion row the
worker's send-result stage persists carries `reply_to` equal to the id of
the work-request row it answers (and a `WORK_COMPLETE: ` intent) — the
two-hop reply chain. -/
theorem reply_chain (agent_name human_id : String) (task : TaskInfo)
    (analysis : Analysis) (u1 u2 : String) (ins : InsertOutcome)
    (wagent whuman : String) (wst : WState) (mreq : MessageRecord)
    (winp : WInputs) :
    (∀ r ∈ (delegateToWorkerNode agent_name human_id task analysis u1 u2
        ins).stored, r.reply_to = some task.id) ∧
    (∀ r ∈ (workerRun wagent whuman wst mreq winp).stored,
        r.reply_to = some mreq.id ∧
        strStartsWith r.intent "WORK_COMPLETE: " = true) := by
  constructor
  · intro r hr
    by_cases h : analysis.requires_worker.truthy
    · cases ins with
      | ok =>
        simp only [delegateToWorkerNode, h, if_true, List.mem_singleton] at hr
        rw [hr]
        rfl
      | noData => simp [delegateToWorkerNode, h] at hr
      | raised msg => simp [delegateToWorkerNode, h] at hr
    · simp [delegateToWorkerNode, h] at hr
  · intro r hr
    cases hI : winp.ins with
    | ok =>
      simp only [workerRun, send_result_node, hI, List.mem_singleton] at hr
      rw [hr]
      exact ⟨rfl, strStartsWith_append _ _⟩
    | noData => simp [workerRun, send_result_node, hI] at hr
    | raised msg => simp [workerRun, send_result_node, hI] at hr

/-- Witness for `reply_chain` at concrete inputs. -/
theorem reply_chain_witness :
    ((delegateToWorkerNode "coordinator" "h0" taskSample analysisTrue "u1"
        "u2" InsertOutcome.ok).stored.headD msgTaskSample).reply_to =
      some taskSample.id ∧
    (((workerRun "worker" "h0" initWorkerState msgWorkReqSample
        winpSample).stored.headD msgTaskSample).reply_to =
      some msgWorkReqSample.id ∧
     strStartsWith ((workerRun "worker" "h0" initWorkerState msgWorkReqSample
        winpSample).stored.headD msgTaskSample).intent "WORK_COMPLETE: " =
      true) :=
  have h := reply_chain "coordinator" "h0" taskSample analysisTrue "u1" "u2"
    InsertOutcome.ok "worker" "h0" initWorkerState msgWorkReqSample winpSample
  ⟨h.1 _ (by decide), h.2 _ (by decide)⟩

/-- C9: every observed WORK_COMPLETE message overwrites
`latest_worker_response` with the newly parsed completion (regardless of
what it held); no coordinator pipeline stage ever changes the field; and
`wait_for_response` after a delegation returns the captured completion
whenever one is present, falling back to the placeholder only when none was
ever captured. -/
theorem latest_worker_response_retention (agent_name human_id : String)
    (st : PyState) (m : MessageRecord) (inp : RunInputs) (r : WorkerResp) :
    (m.id ∉ st.processed_messages →
      strStartsWith m.intent "WORK_COMPLETE:" = true →
      (processIncomingMessage agent_name human_id st m
          inp).1.latest_worker_response =
        some { status := "Completed"
               result := strReplace m.intent "WORK_COMPLETE: " ""
               details := "Worker completed successfully" }) ∧
    ((runWorkflow agent_name human_id st m inp).finalState.latest_worker_response =
      st.latest_worker_response) ∧
    (waitForResponseNode true (some r) = Sum.inr r) ∧
    (waitForResponseNode true none = Sum.inr placeholderWorkerResponse) := by
  refine ⟨fun h1 h2 => ?_,
    (runWorkflow_frame agent_name human_id st m inp).2, rfl, rfl⟩
  simp [processIncomingMessage, h1, h2]

/-- Witness for `latest_worker_response_retention` at concrete inputs. -/
theorem latest_worker_response_retention_witness :
    (processIncomingMessage "coordinator" "h0" initCoordinatorState
        msgCompleteSample inputsSample).1.latest_worker_response =
      some { status := "Completed"
             result := strReplace msgCompleteSample.intent "WORK_COMPLETE: " ""
             details := "Worker completed successfully" } ∧
    (runWorkflow "coordinator" "h0" initCoordinatorState msgTaskSample
        inputsSample).finalState.latest_worker_response =
      initCoordinatorState.latest_worker_response ∧
    waitForResponseNode true (some wrSample) = Sum.inr wrSample :=
  have h1 := latest_worker_response_retention "coordinator" "h0"
    initCoordinatorState msgCompleteSample inputsSample wrSample
  have h2 := latest_worker_response_retention "coordinator" "h0"
    initCoordinatorState msgTaskSample inputsSample wrSample
  ⟨h1.1 (by decide) (by decide), h2.2.1, h1.2.2.1⟩
